import Mathlib

/-!
Verification of the rbdb in-memory key-value command processor.

The embedding follows `src/lib.rs`:
* `Store` is the extensional content of the Rust `HashMap<String, String>`
  session store, with the `HashMap` operations used by the code
  (`insert`, `get`, `contains_key`, `remove`) modelled on it.
* `Query` / `QueryType` mirror the Rust `struct Query` / `enum QueryType`.
* `build_query` embeds `Query::build_query` (the command parser).
* `process_query` embeds `process_query` (the table executor); the Rust
  function takes the store by `&mut` and returns `Result<String, _>`, so the
  embedding threads the store explicitly and returns
  `Except String (Store × String)`.
-/

/-- The in-memory table: the mapping held by the Rust
`HashMap<String, String>` store. -/
abbrev Store : Type := String → Option String

/-- `HashMap::new()`: the empty table. -/
def Store.empty : Store := fun _ => none

/-- `HashMap::get`: look a key up. -/
def Store.get (s : Store) (k : String) : Option String := s k

/-- `HashMap::contains_key`. -/
def Store.contains_key (s : Store) (k : String) : Bool := (s k).isSome

/-- `HashMap::insert` (without its return value, which the code discards):
map `k` to `v`, leaving every other key alone. -/
def Store.insert (s : Store) (k v : String) : Store :=
  fun x => if x = k then some v else s x

/-- `HashMap::remove`: the table with `k` unmapped, paired with the value
previously stored at `k` (the code only asks whether it `is_some`). -/
def Store.remove (s : Store) (k : String) : Store × Option String :=
  (fun x => if x = k then none else s x, s k)

/-- The Rust `enum QueryType`. -/
inductive QueryType where
  | Insert
  | Select
  | Update
  | Delete
deriving DecidableEq

/-- The Rust `struct Query`. -/
structure Query where
  q_type : QueryType
  key : String
  value : Option String
deriving DecidableEq

/-- One character of Rust `str::to_uppercase`, as far as comparisons with
the four ASCII verbs can observe it.  Rust applies the full Unicode
uppercase mapping; beyond the ASCII letters, the only code points whose
uppercase is an ASCII letter are dotless i (U+0131, which uppercases to
I) and long s (U+017F, which uppercases to S), and every multi-character
expansion (the sharp s to SS, the st ligature to ST, the fi ligature to
FI, and so on) produces a letter pair that occurs in none of INSERT,
SELECT, UPDATE, DELETE.  Mapping those two code points and uppercasing
the ASCII range therefore agrees with the source on every equality test
`build_query` performs; all remaining characters are left unchanged,
which neither side can turn into a verb letter. -/
def char_to_uppercase (c : Char) : Char :=
  if c = 'ı' then 'I'
  else if c = 'ſ' then 'S'
  else c.toUpper

/-- Rust `str::to_uppercase` as `Query::build_query` observes it:
uppercase the string character by character. -/
def to_uppercase (s : String) : String :=
  String.mk (s.data.map char_to_uppercase)

/-- `Query::build_query`: requires at least two tokens, matches the
uppercased first token against the four verbs, takes the second token as
the key and the third (if any) as the value; later tokens are ignored. -/
def build_query (tokens : List String) : Except String Query :=
  match tokens with
  | t0 :: t1 :: rest =>
      let u := to_uppercase t0
      let key := t1
      let value : Option String := rest.head?
      if u = "INSERT" then Except.ok (Query.mk QueryType.Insert key value)
      else if u = "SELECT" then Except.ok (Query.mk QueryType.Select key value)
      else if u = "UPDATE" then Except.ok (Query.mk QueryType.Update key value)
      else if u = "DELETE" then Except.ok (Query.mk QueryType.Delete key value)
      else Except.error "Invalid query type"
  | _ => Except.error "Not enough arguments"

/-- `process_query`: apply a query to the store.  Mirrors the Rust function:
`query_result` starts empty, each arm fills it only on its success path
(the `eprintln!` warnings touch neither the store nor the result), and the
function always ends in `Ok(query_result)`. -/
def process_query (query : Query) (store : Store) :
    Except String (Store × String) :=
  match query.q_type with
  | QueryType.Insert =>
      match query.value with
      | some value =>
          Except.ok (store.insert query.key value,
            "SUCCESS: Inserted " ++ query.key ++ ":" ++ value
              ++ " into database")
      | none => Except.ok (store, "")
  | QueryType.Select =>
      match store.get query.key with
      | some value => Except.ok (store, value)
      | none => Except.ok (store, "")
  | QueryType.Update =>
      if store.contains_key query.key then
        match query.value with
        | some value =>
            Except.ok (store.insert query.key value,
              "SUCCESS: Updated " ++ query.key ++ " with " ++ value)
        | none => Except.ok (store, "")
      else Except.ok (store, "")
  | QueryType.Delete =>
      let r := store.remove query.key
      if r.2.isSome then
        Except.ok (r.1, "SUCCESS: Deleted " ++ query.key)
      else Except.ok (r.1, "")

/-- The result string a query produces (the text `rbdb_run` prints). -/
def query_result (q : Query) (st : Store) : String :=
  match process_query q st with
  | Except.ok p => p.2
  | Except.error e => e

/-- Which arm of `process_query` fires its effectful or value-returning
branch: Insert needs a value, Select needs the key present, Update needs
both, Delete needs the key present. -/
def branch_fired (q : Query) (st : Store) : Bool :=
  match q.q_type with
  | QueryType.Insert => q.value.isSome
  | QueryType.Select => (st.get q.key).isSome
  | QueryType.Update => st.contains_key q.key && q.value.isSome
  | QueryType.Delete => st.contains_key q.key

/-- C1: an Insert with a value present sets table[key] = value (overwriting
silently whatever was there) and returns the success text
"SUCCESS: Inserted key:value into database"; an Insert with the value
absent leaves the table unchanged and returns the empty string. -/
theorem C1_insert_semantics (st : Store) (k val : String) :
    process_query (Query.mk QueryType.Insert k (some val)) st =
      Except.ok (st.insert k val,
        "SUCCESS: Inserted " ++ k ++ ":" ++ val ++ " into database")
    ∧ (st.insert k val).get k = some val
    ∧ process_query (Query.mk QueryType.Insert k none) st =
        Except.ok (st, "") := by
  refine ⟨rfl, ?_, rfl⟩
  simp [Store.insert, Store.get]

/-- C2: a Select never changes the table; when the key is present the
returned string is the stored value verbatim, and when it is absent the
returned string is empty.  `(st.get k).getD ""` is exactly that case
split. -/
theorem C2_select_semantics (st : Store) (k : String) (v : Option String) :
    process_query (Query.mk QueryType.Select k v) st =
      Except.ok (st, (st.get k).getD "") := by
  show (match st.get k with
    | some value => Except.ok (st, value)
    | none => Except.ok (st, "")) = _
  cases st.get k <;> rfl

/-- C3: an Update on a present key with a value present sets
table[key] = value and returns "SUCCESS: Updated key with value"; when the
key is absent, or the key is present but the value absent, the table is
unchanged and the returned string is empty. -/
theorem C3_update_semantics (st : Store) (k val : String) :
    (st.contains_key k = true →
      process_query (Query.mk QueryType.Update k (some val)) st =
        Except.ok (st.insert k val,
          "SUCCESS: Updated " ++ k ++ " with " ++ val))
    ∧ (st.contains_key k = false →
      process_query (Query.mk QueryType.Update k (some val)) st =
        Except.ok (st, ""))
    ∧ process_query (Query.mk QueryType.Update k none) st =
        Except.ok (st, "") := by
  refine ⟨fun h => ?_, fun h => ?_, ?_⟩
  · simp [process_query, h]
  · simp [process_query, h]
  · by_cases h : st.contains_key k <;> simp [process_query, h]

/-- Witness for C3 on the concrete table mapping "a" to "1" (and on the
empty table for the key-absent case). -/
theorem C3_update_semantics_witness :
    process_query (Query.mk QueryType.Update "a" (some "2"))
        (Store.empty.insert "a" "1") =
      Except.ok ((Store.empty.insert "a" "1").insert "a" "2",
        "SUCCESS: Updated " ++ "a" ++ " with " ++ "2")
    ∧ process_query (Query.mk QueryType.Update "a" (some "2")) Store.empty =
        Except.ok (Store.empty, "") :=
  ⟨(C3_update_semantics (Store.empty.insert "a" "1") "a" "2").1 (by decide),
   (C3_update_semantics Store.empty "a" "2").2.1 (by decide)⟩

/-- C4: a Delete on a present key removes exactly that key (it becomes
absent, every other key keeps its value) and returns "SUCCESS: Deleted
key"; a Delete on an absent key leaves the table unchanged and returns the
empty string, so a second Delete of the same key takes the not-found path
without any error. -/
theorem C4_delete_semantics (st : Store) (k : String) (v : Option String) :
    ((st.get k).isSome = true →
      process_query (Query.mk QueryType.Delete k v) st =
        Except.ok ((st.remove k).1, "SUCCESS: Deleted " ++ k)
      ∧ ((st.remove k).1).get k = none
      ∧ (∀ x, x ≠ k → ((st.remove k).1).get x = st.get x)
      ∧ process_query (Query.mk QueryType.Delete k v) (st.remove k).1 =
          Except.ok ((st.remove k).1, ""))
    ∧ ((st.get k).isSome = false →
      process_query (Query.mk QueryType.Delete k v) st =
        Except.ok (st, "")) := by
  constructor
  · intro h
    refine ⟨?_, ?_, ?_, ?_⟩
    · simp [process_query, Store.remove, Store.get] at h ⊢
      simp [Option.isSome_iff_exists] at h
      obtain ⟨w, hw⟩ := h
      simp [hw]
    · simp [Store.remove, Store.get]
    · intro x hx
      simp [Store.remove, Store.get, hx]
    · have hnone : ((st.remove k).1) k = none := by simp [Store.remove]
      simp [process_query, Store.remove, Store.get, hnone]
      funext x
      by_cases hx : x = k <;> simp [hx, hnone]
  · intro h
    simp [Option.isSome_iff_exists] at h
    have hnone : st.get k = none := h
    simp [process_query, Store.remove, Store.get] at hnone ⊢
    simp [hnone]
    funext x
    by_cases hx : x = k <;> simp [hx, hnone]

/-- Witness for C4: deleting "a" from the table mapping "a" to "1", and
deleting "b" from the empty table. -/
theorem C4_delete_semantics_witness :
    (process_query (Query.mk QueryType.Delete "a" none)
        (Store.empty.insert "a" "1") =
      Except.ok (((Store.empty.insert "a" "1").remove "a").1,
        "SUCCESS: Deleted " ++ "a"))
    ∧ process_query (Query.mk QueryType.Delete "b" none) Store.empty =
        Except.ok (Store.empty, "") :=
  ⟨((C4_delete_semantics (Store.empty.insert "a" "1") "a" none).1
      (by decide)).1,
   (C4_delete_semantics Store.empty "b" none).2 (by decide)⟩

/-- C5 counterexample: on the table mapping "k" to "0" (so the key
pre-exists) with value "1" present, Insert and Update do NOT produce the
same observable output — Insert returns "SUCCESS: Inserted k:1 into
database" while Update returns "SUCCESS: Updated k with 1". -/
theorem C5_counterexample :
    query_result (Query.mk QueryType.Insert "k" (some "1"))
        (Store.empty.insert "k" "0") =
      "SUCCESS: Inserted k:1 into database"
    ∧ query_result (Query.mk QueryType.Update "k" (some "1"))
        (Store.empty.insert "k" "0") =
      "SUCCESS: Updated k with 1"
    ∧ query_result (Query.mk QueryType.Insert "k" (some "1"))
        (Store.empty.insert "k" "0") ≠
      query_result (Query.mk QueryType.Update "k" (some "1"))
        (Store.empty.insert "k" "0") := by
  refine ⟨by decide, by decide, by decide⟩

/-- C5 amended: when the key pre-exists and a value is present, Insert and
Update produce the same resulting table (both overwrite table[key] with
the value), but their returned success texts are the distinct Insert and
Update messages, so they are state-equivalent rather than fully
observably equivalent. -/
theorem C5_insert_update_same_table (st : Store) (k val : String)
    (h : st.contains_key k = true) :
    process_query (Query.mk QueryType.Insert k (some val)) st =
      Except.ok (st.insert k val,
        "SUCCESS: Inserted " ++ k ++ ":" ++ val ++ " into database")
    ∧ process_query (Query.mk QueryType.Update k (some val)) st =
        Except.ok (st.insert k val,
          "SUCCESS: Updated " ++ k ++ " with " ++ val) := by
  exact ⟨rfl, by simp [process_query, h]⟩

/-- Witness for the amended C5 on the table mapping "k" to "0". -/
theorem C5_insert_update_same_table_witness :
    process_query (Query.mk QueryType.Insert "k" (some "1"))
        (Store.empty.insert "k" "0") =
      Except.ok ((Store.empty.insert "k" "0").insert "k" "1",
        "SUCCESS: Inserted " ++ "k" ++ ":" ++ "1" ++ " into database")
    ∧ process_query (Query.mk QueryType.Update "k" (some "1"))
        (Store.empty.insert "k" "0") =
        Except.ok ((Store.empty.insert "k" "0").insert "k" "1",
          "SUCCESS: Updated " ++ "k" ++ " with " ++ "1") :=
  C5_insert_update_same_table (Store.empty.insert "k" "0") "k" "1"
    (by decide)

/-- C6: with fewer than two tokens, build_query fails with the
not-enough-arguments condition (the error string "Not enough arguments")
and produces no Query. -/
theorem C6_too_few_tokens (tokens : List String)
    (h : tokens.length < 2) :
    build_query tokens = Except.error "Not enough arguments" := by
  match tokens with
  | [] => rfl
  | [t0] => rfl
  | t0 :: t1 :: rest => simp at h; omega

/-- Witness for C6 at the empty token list and a one-token list. -/
theorem C6_too_few_tokens_witness :
    build_query [] = Except.error "Not enough arguments"
    ∧ build_query ["delete"] = Except.error "Not enough arguments" :=
  ⟨C6_too_few_tokens [] (by decide),
   C6_too_few_tokens ["delete"] (by decide)⟩

/-- C7: with at least two tokens whose first token does not
case-insensitively match any of INSERT, SELECT, UPDATE, DELETE (its
uppercasing equals none of them), build_query fails with the
invalid-command-type condition (the error string "Invalid query type")
and produces no Query. -/
theorem C7_invalid_verb (t0 t1 : String) (rest : List String)
    (h : to_uppercase t0 ∉ (["INSERT", "SELECT", "UPDATE", "DELETE"] :
      List String)) :
    build_query (t0 :: t1 :: rest) = Except.error "Invalid query type" := by
  simp at h
  simp [build_query, h.1, h.2.1, h.2.2.1, h.2.2.2]

/-- Witness for C7 at the token list ["foo", "bar"]. -/
theorem C7_invalid_verb_witness :
    build_query ["foo", "bar"] = Except.error "Invalid query type" :=
  C7_invalid_verb "foo" "bar" [] (by decide)

/-- C8: with at least two tokens whose first token case-insensitively
matches one of the four verbs (its uppercasing equals that verb),
build_query succeeds with the kind determined by the verb, key equal to
the second token verbatim, and value equal to the third token when one
exists and absent otherwise; tokens beyond the third have no effect on
the result.  build_query is a plain function of its token list, so it is
pure by construction. -/
theorem C8_build_query_success (t0 t1 : String) (rest : List String) :
    (to_uppercase t0 = "INSERT" →
      build_query (t0 :: t1 :: rest) =
        Except.ok (Query.mk QueryType.Insert t1 rest.head?))
    ∧ (to_uppercase t0 = "SELECT" →
      build_query (t0 :: t1 :: rest) =
        Except.ok (Query.mk QueryType.Select t1 rest.head?))
    ∧ (to_uppercase t0 = "UPDATE" →
      build_query (t0 :: t1 :: rest) =
        Except.ok (Query.mk QueryType.Update t1 rest.head?))
    ∧ (to_uppercase t0 = "DELETE" →
      build_query (t0 :: t1 :: rest) =
        Except.ok (Query.mk QueryType.Delete t1 rest.head?))
    ∧ ∀ t2 more, build_query (t0 :: t1 :: t2 :: more) =
        build_query [t0, t1, t2] := by
  refine ⟨fun h => ?_, fun h => ?_, fun h => ?_, fun h => ?_,
    fun t2 more => rfl⟩
  all_goals simp [build_query, h]

/-- Witness for C8: the line "insert k v extra" parses to an Insert of key
"k" with value "v", the extra token ignored; and the dotless-i spelling
"ınsert k" also case-insensitively matches INSERT and parses to an
Insert, as under Rust uppercasing. -/
theorem C8_build_query_success_witness :
    build_query ["insert", "k", "v", "extra"] =
      Except.ok (Query.mk QueryType.Insert "k" ((["v", "extra"] :
        List String).head?))
    ∧ build_query ["ınsert", "k"] =
      Except.ok (Query.mk QueryType.Insert "k" (([] :
        List String).head?)) :=
  ⟨(C8_build_query_success "insert" "k" ["v", "extra"]).1 (by decide),
   (C8_build_query_success "ınsert" "k" []).1 (by decide)⟩

/-- C9: process_query never returns a hard error: on every query and every
table it returns Except.ok, and when no effectful or value-returning
branch fired the carried string is empty and the table untouched; the
diagnostic conditions only reach stderr and never the result. -/
theorem C9_always_ok (q : Query) (st : Store) :
    ∃ p, process_query q st = Except.ok p ∧
      (branch_fired q st = false → p.2 = "" ∧ p.1 = st) := by
  obtain ⟨qt, k, v⟩ := q
  cases qt with
  | Insert =>
      cases v with
      | some val => exact ⟨_, rfl, by intro h; simp [branch_fired] at h⟩
      | none => exact ⟨(st, ""), rfl, fun _ => ⟨rfl, rfl⟩⟩
  | Select =>
      cases hv : st.get k with
      | some w =>
          refine ⟨(st, w), by simp [process_query, hv], ?_⟩
          intro h
          simp [branch_fired, hv] at h
      | none =>
          exact ⟨(st, ""), by simp [process_query, hv], fun _ => ⟨rfl, rfl⟩⟩
  | Update =>
      by_cases hc : st.contains_key k
      · cases v with
        | some val =>
            refine ⟨(st.insert k val,
              "SUCCESS: Updated " ++ k ++ " with " ++ val),
              by simp [process_query, hc], ?_⟩
            intro h
            simp [branch_fired, hc] at h
        | none =>
            exact ⟨(st, ""), by simp [process_query, hc],
              fun _ => ⟨rfl, rfl⟩⟩
      · exact ⟨(st, ""), by simp [process_query, hc], fun _ => ⟨rfl, rfl⟩⟩
  | Delete =>
      cases hv : st k with
      | some w =>
          refine ⟨((st.remove k).1, "SUCCESS: Deleted " ++ k),
            by simp [process_query, Store.remove, hv], ?_⟩
          intro h
          simp [branch_fired, Store.contains_key, hv] at h
      | none =>
        refine ⟨(st, ""), ?_, fun _ => ⟨rfl, rfl⟩⟩
        have hfun : (st.remove k).1 = st := by
          funext x
          by_cases hx : x = k <;> simp [Store.remove, hx, hv]
        calc process_query (Query.mk QueryType.Delete k v) st
            = Except.ok ((st.remove k).1, "") := by
              simp [process_query, Store.remove, hv]
          _ = Except.ok (st, "") := by rw [hfun]

/-- Witness for C9 at a Select on the empty table. -/
theorem C9_always_ok_witness :
    ∃ p, process_query (Query.mk QueryType.Select "a" none) Store.empty =
        Except.ok p ∧
      (branch_fired (Query.mk QueryType.Select "a" none) Store.empty =
          false → p.2 = "" ∧ p.1 = Store.empty) :=
  C9_always_ok (Query.mk QueryType.Select "a" none) Store.empty

/-- C10 (frame property): executing any query on any table leaves every
key other than the query's key mapped exactly as before. -/
theorem C10_frame_property (q : Query) (st : Store) :
    ∃ p, process_query q st = Except.ok p ∧
      ∀ x, x ≠ q.key → p.1.get x = st.get x := by
  obtain ⟨qt, k, v⟩ := q
  cases qt with
  | Insert =>
      cases v with
      | some val =>
          refine ⟨_, rfl, ?_⟩
          intro x hx
          simp [Store.insert, Store.get, hx]
      | none => exact ⟨(st, ""), rfl, fun x _ => rfl⟩
  | Select =>
      cases hv : st.get k with
      | some w =>
          exact ⟨(st, w), by simp [process_query, hv], fun x _ => rfl⟩
      | none =>
          exact ⟨(st, ""), by simp [process_query, hv], fun x _ => rfl⟩
  | Update =>
      by_cases hc : st.contains_key k
      · cases v with
        | some val =>
            refine ⟨(st.insert k val,
              "SUCCESS: Updated " ++ k ++ " with " ++ val),
              by simp [process_query, hc], ?_⟩
            intro x hx
            simp [Store.insert, Store.get, hx]
        | none =>
            exact ⟨(st, ""), by simp [process_query, hc], fun x _ => rfl⟩
      · exact ⟨(st, ""), by simp [process_query, hc], fun x _ => rfl⟩
  | Delete =>
      cases hv : st k with
      | some w =>
          refine ⟨((st.remove k).1, "SUCCESS: Deleted " ++ k),
            by simp [process_query, Store.remove, hv], ?_⟩
          intro x hx
          simp [Store.remove, Store.get, hx]
      | none =>
          refine ⟨((st.remove k).1, ""),
            by simp [process_query, Store.remove, hv], ?_⟩
          intro x hx
          simp [Store.remove, Store.get, hx]

/-- Witness for C10 at an Insert on the empty table. -/
theorem C10_frame_property_witness :
    ∃ p, process_query (Query.mk QueryType.Insert "a" (some "1"))
        Store.empty = Except.ok p ∧
      ∀ x, x ≠ (Query.mk QueryType.Insert "a" (some "1")).key →
        p.1.get x = Store.empty.get x :=
  C10_frame_property (Query.mk QueryType.Insert "a" (some "1")) Store.empty
